import Mathlib

/-!
Verification of the EcoMind agent-orchestration core
(`agent_orchestrator.py`, `base_agent.py`, and the message handlers of
`monitoring_agent.py` / `predictive_agent.py`).

The Python code is shallowly embedded: Python values become the inductive
`Value`, exceptions become `Except String`, and the orchestrator's stateful
operations become explicit functions from state to state plus an effect
record.  Agent-specific business logic that the orchestrator treats as
opaque (mock data generation, prediction internals, cleanup of network
sessions) is abstracted as oracle parameters, exactly where the code calls
out to those hooks.
-/

namespace EcoMind

/-! ## Python value model -/

/-- Python value universe for the payloads flowing through the system. -/
inductive Value where
  | none : Value
  | bool : Bool → Value
  | int : Int → Value
  | str : String → Value
  | list : List Value → Value
  | dict : List (String × Value) → Value


/-- Python truthiness: `None`, `False`, `0`, `""`, `[]`, `{}` are falsy. -/
def Value.truthy : Value → Bool
  | .none => false
  | .bool b => b
  | .int n => n != 0
  | .str s => s != ""
  | .list xs => !xs.isEmpty
  | .dict es => !es.isEmpty

/-- `d.get(key, default)`: dictionary lookup with default; raises
(`AttributeError`) when the receiver is not a dict. -/
def Value.dictGet (v : Value) (key : String) (default : Value) :
    Except String Value :=
  match v with
  | .dict es => .ok (((es.find? (fun p => p.1 == key)).map Prod.snd).getD default)
  | _ => .error "AttributeError: no attribute get"

/-- Python `<=` on payload values; comparison against `None` or other
non-numbers raises `TypeError`, exactly as in CPython 3. -/
def pyLE (a b : Value) : Except String Bool :=
  match a, b with
  | .int m, .int n => .ok (decide (m ≤ n))
  | _, _ => .error "TypeError: unsupported comparison"

/-- Python `a or b` (value-returning, truthiness-driven). -/
def pyOr (a b : Value) : Value :=
  if a.truthy then a else b

/-! ## `base_agent.py` -/

/-- Mutable per-agent state of `BaseAgent.__init__`
(`base_agent.py` lines 14–21); the logger is outside the model. -/
structure AgentState where
  name : String
  cycle_interval : Nat
  is_active : Bool
  action_count : Nat
  memory : List (String × Value)


/-- The `initialize` method of `BaseAgent` (`base_agent.py` lines 23–27): sets
`is_active = True` and then awaits the agent-specific `_setup` hook
(modelled as an oracle on the agent's private memory, which is all any
concrete `_setup` in this repository touches).  The second component is
the exception escaping `initialize`, if any; note the activity flag is
already set when `_setup` runs. -/
def BaseAgent.initialise
    (setup : List (String × Value) → Except String (List (String × Value)))
    (a : AgentState) : AgentState × Option String :=
  let a1 := { a with is_active := true }
  match setup a1.memory with
  | .ok m => ({ a1 with memory := m }, Option.none)
  | .error e => (a1, some e)

/-- `BaseAgent.shutdown` (`base_agent.py` lines 29–33): sets
`is_active = False` and then awaits the `_cleanup` hook. -/
def BaseAgent.shutdown
    (cleanup : List (String × Value) → Except String (List (String × Value)))
    (a : AgentState) : AgentState × Option String :=
  let a1 := { a with is_active := false }
  match cleanup a1.memory with
  | .ok m => ({ a1 with memory := m }, Option.none)
  | .error e => (a1, some e)

/-- `BaseAgent._get_memory` (`base_agent.py` lines 84–86):
`self.memory.get(key, {}).get('value')`. -/
def getMemory (mem : List (String × Value)) (key : String) : Value :=
  match (mem.find? (fun p => p.1 == key)).map Prod.snd with
  | some (.dict es) =>
      ((es.find? (fun p => p.1 == "value")).map Prod.snd).getD .none
  | _ => .none

/-- Freshly constructed `EnvironmentalMonitoringAgent`
(`monitoring_agent.py` line 18). -/
def monitoringAgent0 : AgentState :=
  { name := "EnvironmentalMonitoringAgent", cycle_interval := 300,
    is_active := false, action_count := 0, memory := [] }

/-- Freshly constructed `PredictiveActionAgent`
(`predictive_agent.py` line 19). -/
def predictiveAgent0 : AgentState :=
  { name := "PredictiveActionAgent", cycle_interval := 600,
    is_active := false, action_count := 0, memory := [] }

/-- Freshly constructed `CommunityCoordinationAgent`
(`community_agent.py` line 18). -/
def communityAgent0 : AgentState :=
  { name := "CommunityCoordinationAgent", cycle_interval := 900,
    is_active := false, action_count := 0, memory := [] }

/-- Freshly constructed `PersonalSustainabilityCoach`
(`coach_agent.py` line 18). -/
def coachAgent0 : AgentState :=
  { name := "PersonalSustainabilityCoach", cycle_interval := 1800,
    is_active := false, action_count := 0, memory := [] }

/-! ## Shared memory -/

/-- Python dict read: `shared_memory.get(k)`. -/
def smLookup (sm : List (String × Value)) (k : String) : Option Value :=
  (sm.find? (fun p => p.1 == k)).map Prod.snd

/-- Python dict assignment `shared_memory[k] = v`: overwrite in place,
append at the end for a fresh key (insertion order preserved). -/
def smSet (sm : List (String × Value)) (k : String) (v : Value) :
    List (String × Value) :=
  if sm.any (fun p => p.1 == k) then
    sm.map (fun p => if p.1 == k then (k, v) else p)
  else
    sm ++ [(k, v)]

/-- The `{last_update, data}` envelope written by `_run_agent`
(`agent_orchestrator.py` lines 68–71). -/
def mkEnvelope (now : String) (result : Value) : Value :=
  .dict [("last_update", .str now), ("data", result)]

/-! ## `agent_orchestrator.py` -/

/-- Orchestrator state (`agent_orchestrator.py` lines 16–21); the task
list and logger live outside the pure model, `agents` keeps registration
order (a Python dict preserves insertion order). -/
structure Orchestrator where
  agents : List AgentState
  running : Bool
  shared_memory : List (String × Value)


/-- What one `execute_cycle` invocation did: returned a value, or let an
exception escape. -/
inductive CycleOutcome where
  | ret : Value → CycleOutcome
  | raise : String → CycleOutcome


/-- Observable effect of one iteration of `_run_agent`'s `while` body. -/
structure IterationEffect where
  write : Option (String × Value)
  sleep : Nat
  continues : Bool


/-- One iteration of the `_run_agent` loop body
(`agent_orchestrator.py` lines 61–78): on a returned result, write the
envelope iff the result is truthy, then sleep for the agent's cycle
interval; on an escaped exception, log, write nothing, sleep 5.
Neither path breaks out of the loop. -/
def runAgentIteration (agent : AgentState) (now : String)
    (outcome : CycleOutcome) : IterationEffect :=
  match outcome with
  | .ret result =>
      { write := if result.truthy then
                   some (agent.name, mkEnvelope now result)
                 else Option.none
        sleep := agent.cycle_interval
        continues := true }
  | .raise _ =>
      { write := Option.none, sleep := 5, continues := true }

/-- The `while self.running` loop of `_run_agent`
(`agent_orchestrator.py` line 61), driven by a trace of cycle outcomes
(one per iteration, each tagged with the wall-clock reading) and the
running flag as seen at the top of each iteration.  The loop exits
exactly when the flag reads false. -/
def runAgentLoopFrom (agent : AgentState) (running : Nat → Bool) :
    Nat → List (String × CycleOutcome) → List IterationEffect
  | _, [] => []
  | i, (now, oc) :: rest =>
      if running i then
        runAgentIteration agent now oc :: runAgentLoopFrom agent running (i + 1) rest
      else []

/-- `is_running` (`agent_orchestrator.py` lines 120–122). -/
def AgentOrchestrator.isRunning (o : Orchestrator) : Bool :=
  o.running

/-- The sequential initialization loop of `start`
(`agent_orchestrator.py` lines 28–29): initialize each agent in order;
the first exception aborts the loop and escapes.  Returns the updated
agent list, the names `initialize` was invoked on (in order), and the
escaping exception if any. -/
def startInitAgents (setup : String → Except String Unit) :
    List AgentState → List AgentState × List String × Option String
  | [] => ([], [], Option.none)
  | a :: rest =>
      let r := BaseAgent.initialise (fun m => (setup a.name).map fun _ => m) a
      match r.2 with
      | Option.none =>
          let t := startInitAgents setup rest
          (r.1 :: t.1, a.name :: t.2.1, t.2.2)
      | some e => (r.1 :: rest, [a.name], some e)

/-- Observable effect of one call to `start`. -/
structure StartEffect where
  orch : Orchestrator
  initInvoked : List String
  cycleTasksSpawned : List String
  coordinationTaskSpawned : Bool
  error : Option String


/-- `start` (`agent_orchestrator.py` lines 23–40): sets `running = True`
first (line 25), then sequentially initializes every agent; an
initialization exception escapes before any task creation, so no cycle
task and no coordination task is spawned; otherwise one cycle task per
agent plus the coordination task are created. -/
def AgentOrchestrator.start (setup : String → Except String Unit)
    (o : Orchestrator) : StartEffect :=
  let o1 := { o with running := true }
  let t := startInitAgents setup o1.agents
  match t.2.2 with
  | some e =>
      { orch := { o1 with agents := t.1 }, initInvoked := t.2.1,
        cycleTasksSpawned := [], coordinationTaskSpawned := false,
        error := some e }
  | Option.none =>
      { orch := { o1 with agents := t.1 }, initInvoked := t.2.1,
        cycleTasksSpawned := t.1.map (fun a => a.name),
        coordinationTaskSpawned := true, error := Option.none }

/-- The sequential shutdown loop of `stop`
(`agent_orchestrator.py` lines 54–55): `await agent.shutdown()` for each
agent in order, with no exception handling — the first exception aborts
the loop and escapes.  Returns the updated agent list, the names
`shutdown` was invoked on, and the escaping exception if any. -/
def stopShutdownAgents (cleanup : String → Except String Unit) :
    List AgentState → List AgentState × List String × Option String
  | [] => ([], [], Option.none)
  | a :: rest =>
      let r := BaseAgent.shutdown (fun m => (cleanup a.name).map fun _ => m) a
      match r.2 with
      | Option.none =>
          let t := stopShutdownAgents cleanup rest
          (r.1 :: t.1, a.name :: t.2.1, t.2.2)
      | some e => (r.1 :: rest, [a.name], some e)

/-- Observable effect of one call to `stop`. -/
structure StopEffect where
  orch : Orchestrator
  tasksCancelled : Bool
  shutdownInvoked : List String
  error : Option String


/-- `stop` (`agent_orchestrator.py` lines 42–57): sets `running = False`,
cancels every task and gathers them with `return_exceptions=True`
(task failures are swallowed), then sequentially shuts the agents down;
a shutdown exception escapes `stop` itself. -/
def AgentOrchestrator.stop (cleanup : String → Except String Unit)
    (o : Orchestrator) : StopEffect :=
  let o1 := { o with running := false }
  let t := stopShutdownAgents cleanup o1.agents
  { orch := { o1 with agents := t.1 }, tasksCancelled := true,
    shutdownInvoked := t.2.1, error := t.2.2 }

/-- The `"system"` aggregate value written by `_update_global_state`
(`agent_orchestrator.py` lines 111–118). -/
def systemStateValue (agents : List AgentState) (now : String) : Value :=
  .dict [("timestamp", .str now),
         ("agents_running", .int ((agents.filter (fun a => a.is_active)).length : Int)),
         ("total_actions", .int ((agents.map (fun a => (a.action_count : Int))).sum)),
         ("uptime", .str now)]

/-- `_update_global_state` (`agent_orchestrator.py` lines 111–118). -/
def updateGlobalState (agents : List AgentState) (now : String)
    (sm : List (String × Value)) : List (String × Value) :=
  smSet sm "system" (systemStateValue agents now)

/-- The pollution-alert condition read by `_check_cross_agent_actions`
(`agent_orchestrator.py` lines 100–102):
`shared_memory.get('EnvironmentalMonitoringAgent', {}).get('data', {})
.get('pollution_alert')` tested for truthiness. -/
def pollutionAlertFlag (sm : List (String × Value)) : Except String Bool := do
  let env := (smLookup sm "EnvironmentalMonitoringAgent").getD (.dict [])
  let monitoring_data ← env.dictGet "data" (.dict [])
  let flag ← monitoring_data.dictGet "pollution_alert" .none
  .ok flag.truthy

/-- `_check_cross_agent_actions` (`agent_orchestrator.py` lines 97–109),
returning the direct extension-point invocations it performs, as
(agent name, method name) pairs in invocation order. -/
def checkCrossAgentActions (registered : List String)
    (sm : List (String × Value)) : Except String (List (String × String)) := do
  let alert ← pollutionAlertFlag sm
  if alert then
    .ok ((if registered.contains "PredictiveActionAgent" then
            [("PredictiveActionAgent", "handle_pollution_alert")]
          else []) ++
         (if registered.contains "CommunityCoordinationAgent" then
            [("CommunityCoordinationAgent", "coordinate_pollution_response")]
          else []))
  else
    .ok []

/-- `broadcast_message` (`agent_orchestrator.py` lines 150–158): invoke
`handle_message` on every registered agent; a per-agent exception is
caught and recorded as the string `f"Error: {e}"` for that agent's
entry. -/
def broadcastMessage (handler : String → Except String Value)
    (agents : List AgentState) : List (String × Value) :=
  agents.map (fun a =>
    (a.name,
     match handler a.name with
     | .ok v => v
     | .error e => .str ("Error: " ++ e)))

/-! ## Message handlers (`_process_message`) -/

/-- Python `v == "s"` for a literal string on the right: true exactly
when `v` is that string. -/
def Value.eqStr (v : Value) (s : String) : Bool :=
  match v with
  | .str t => t == s
  | _ => false

mutual

/-- Python `==` between payload values (structural; the dict case keeps
entry order, which is all the handlers below ever compare). -/
def Value.beq : Value → Value → Bool
  | .none, .none => true
  | .bool a, .bool b => a == b
  | .int a, .int b => a == b
  | .str a, .str b => a == b
  | .list xs, .list ys => beqValueList xs ys
  | .dict xs, .dict ys => beqEntryList xs ys
  | _, _ => false

def beqValueList : List Value → List Value → Bool
  | [], [] => true
  | x :: xs, y :: ys => Value.beq x y && beqValueList xs ys
  | _, _ => false

def beqEntryList : List (String × Value) → List (String × Value) → Bool
  | [], [] => true
  | (k, v) :: xs, (l, w) :: ys => k == l && Value.beq v w && beqEntryList xs ys
  | _, _ => false

end

/-- The fall-through response shared by every `_process_message`. -/
def unknownTypeResponse : Value :=
  .dict [("status", .str "unknown_message_type")]

/-- The `for data in latest_data: if data.get("location") == location:
return data` loop of `monitoring_agent.py` lines 197–200 (falls through
to `return None`). -/
def findLocationIn (location : Value) : List Value → Except String Value
  | [] => .ok .none
  | d :: rest => do
      let l ← d.dictGet "location" .none
      if Value.beq l location then .ok d else findLocationIn location rest

/-- `EnvironmentalMonitoringAgent._process_message`
(`monitoring_agent.py` lines 185–209).  Takes the agent's private memory
and its `monitoring_locations` list; returns the response and the
possibly-extended locations list.  Iteration over a non-list value would
raise, which never happens here because nothing ever stores
`latest_environmental_data`. -/
def monitoringProcessMessage (mem : List (String × Value))
    (monitoring_locations : List Value) (message : Value) :
    Except String (Value × List Value) := do
  let message_type ← message.dictGet "type" .none
  if message_type.eqStr "get_current_data" then
    .ok (getMemory mem "latest_environmental_data", monitoring_locations)
  else if message_type.eqStr "get_location_data" then do
    let location ← message.dictGet "location" .none
    match pyOr (getMemory mem "latest_environmental_data") (.list []) with
    | .list xs => do
        let r ← findLocationIn location xs
        .ok (r, monitoring_locations)
    | _ => .error "TypeError: not iterable"
  else if message_type.eqStr "set_monitoring_location" then do
    let new_location ← message.dictGet "location" .none
    if new_location.truthy then
      .ok (.dict [("status", .str "success"),
                  ("message", .str "Location added")],
           monitoring_locations ++ [new_location])
    else
      .ok (unknownTypeResponse, monitoring_locations)
  else
    .ok (unknownTypeResponse, monitoring_locations)

/-- `PredictiveActionAgent._process_message`
(`predictive_agent.py` lines 457–479).  The prediction subroutines
`_predict_air_quality` / `_predict_pollution_events` are agent business
logic outside the orchestration core and enter as oracles.  Takes the
agent's private memory and its `prediction_threshold`; returns the
response and the possibly-updated threshold.  Note the chained
comparison `0 <= new_threshold <= 1` (line 476): a missing `threshold`
key yields `None` and the first comparison raises `TypeError`. -/
def predictiveProcessMessage (oAQ oPE : Value → Except String Value)
    (mem : List (String × Value)) (threshold : Value) (message : Value) :
    Except String (Value × Value) := do
  let message_type ← message.dictGet "type" .none
  if message_type.eqStr "get_predictions" then
    .ok (getMemory mem "latest_predictions", threshold)
  else if message_type.eqStr "request_prediction" then do
    let prediction_type ← message.dictGet "prediction_type" .none
    let data ← message.dictGet "data" (.dict [])
    if prediction_type.eqStr "air_quality" then do
      let r ← oAQ data
      .ok (r, threshold)
    else if prediction_type.eqStr "pollution_event" then do
      let r ← oPE data
      .ok (r, threshold)
    else
      .ok (unknownTypeResponse, threshold)
  else if message_type.eqStr "update_threshold" then do
    let new_threshold ← message.dictGet "threshold" .none
    let lo ← pyLE (.int 0) new_threshold
    if lo then do
      let hi ← pyLE new_threshold (.int 1)
      if hi then
        .ok (.dict [("status", .str "success"),
                    ("new_threshold", new_threshold)], new_threshold)
      else
        .ok (unknownTypeResponse, threshold)
    else
      .ok (unknownTypeResponse, threshold)
  else
    .ok (unknownTypeResponse, threshold)

/-! ## Write-site model

Shared memory is written at exactly two places in the repository
(`self.shared_memory[agent.name] = ...` in `_run_agent`, line 68, and
`self.shared_memory['system'] = ...` in `_update_global_state`,
line 113); every other access in `agent_orchestrator.py`, the agents and
`routes.py` is a `.get`/read.  `OrchStep` enumerates the orchestrator's
schedulable operations and `stepWrites` the writes each performs. -/

/-- One schedulable orchestrator operation.  `agentCycle` is one
iteration of some agent's `_run_agent` loop body; `coordinationTick` is
one iteration of `_coordinate_agents` (cross-agent rule check followed,
when the check does not raise, by `_update_global_state`); the remaining
operations (`start`/`stop` bookkeeping, `get_status`,
`send_message_to_agent`/`broadcast_message`) never touch shared
memory. -/
inductive OrchStep where
  | agentCycle (agent : AgentState) (now : String) (outcome : CycleOutcome)
  | coordinationTick (agents : List AgentState) (now : String)
      (sm : List (String × Value))
  | startOp
  | stopOp
  | statusQuery
  | messageDispatch

/-- The shared-memory writes one operation performs, in order. -/
def stepWrites : OrchStep → List (String × Value)
  | .agentCycle agent now outcome =>
      match (runAgentIteration agent now outcome).write with
      | some w => [w]
      | Option.none => []
  | .coordinationTick agents now sm =>
      match checkCrossAgentActions (agents.map fun a => a.name) sm with
      | .ok _ => [("system", systemStateValue agents now)]
      | .error _ => []
  | .startOp => []
  | .stopOp => []
  | .statusQuery => []
  | .messageDispatch => []

/-- Well-formedness of a step: no agent of this system is named
`"system"` (the four registered agents of `main.py` carry their class
names). -/
def OrchStep.wf : OrchStep → Prop
  | .agentCycle agent _ _ => agent.name ≠ "system"
  | _ => True

/-! ## Concrete fixtures -/

/-- A setup/cleanup oracle that succeeds on every agent. -/
def allOk : String → Except String Unit := fun _ => .ok ()

/-- A setup/cleanup oracle that raises `msg` for the agent named
`target` and succeeds elsewhere. -/
def failOn (target msg : String) : String → Except String Unit :=
  fun n => if n == target then .error msg else .ok ()

/-- A freshly constructed orchestrator over the monitoring and
predictive agents, in that registration order. -/
def orchTwo0 : Orchestrator :=
  { agents := [monitoringAgent0, predictiveAgent0], running := false,
    shared_memory := [] }

/-- A monitoring result carrying a truthy pollution-alert flag. -/
def alertData : Value :=
  .dict [("pollution_alert", .bool true)]

/-! ## Helper lemmas -/

theorem startInitAgents_ok (setup : String → Except String Unit)
    (agents : List AgentState) (h : ∀ a ∈ agents, setup a.name = .ok ()) :
    startInitAgents setup agents
      = (agents.map (fun a => { a with is_active := true }),
         agents.map (fun a => a.name), Option.none) := by
  induction agents with
  | nil => rfl
  | cons a rest ih =>
      have ha : setup a.name = .ok () := h a (List.mem_cons_self a rest)
      have hrest : ∀ b ∈ rest, setup b.name = .ok () :=
        fun b hb => h b (List.mem_cons_of_mem a hb)
      simp [startInitAgents, BaseAgent.initialise, Except.map, ha, ih hrest]

theorem startInitAgents_fail (setup : String → Except String Unit)
    (pre : List AgentState) (a : AgentState) (post : List AgentState)
    (e : String) (hpre : ∀ b ∈ pre, setup b.name = .ok ())
    (hfail : setup a.name = .error e) :
    startInitAgents setup (pre ++ a :: post)
      = (pre.map (fun b => { b with is_active := true })
           ++ { a with is_active := true } :: post,
         (pre ++ [a]).map (fun b => b.name), some e) := by
  induction pre with
  | nil => simp [startInitAgents, BaseAgent.initialise, Except.map, hfail]
  | cons b rest ih =>
      have hb : setup b.name = .ok () := hpre b (List.mem_cons_self b rest)
      have hrest : ∀ c ∈ rest, setup c.name = .ok () :=
        fun c hc => hpre c (List.mem_cons_of_mem b hc)
      simp [startInitAgents, BaseAgent.initialise, Except.map, hb, ih hrest]

theorem stopShutdownAgents_ok (cleanup : String → Except String Unit)
    (agents : List AgentState) (h : ∀ a ∈ agents, cleanup a.name = .ok ()) :
    stopShutdownAgents cleanup agents
      = (agents.map (fun a => { a with is_active := false }),
         agents.map (fun a => a.name), Option.none) := by
  induction agents with
  | nil => rfl
  | cons a rest ih =>
      have ha : cleanup a.name = .ok () := h a (List.mem_cons_self a rest)
      have hrest : ∀ b ∈ rest, cleanup b.name = .ok () :=
        fun b hb => h b (List.mem_cons_of_mem a hb)
      simp [stopShutdownAgents, BaseAgent.shutdown, Except.map, ha, ih hrest]

theorem stopShutdownAgents_fail (cleanup : String → Except String Unit)
    (pre : List AgentState) (a : AgentState) (post : List AgentState)
    (e : String) (hpre : ∀ b ∈ pre, cleanup b.name = .ok ())
    (hfail : cleanup a.name = .error e) :
    stopShutdownAgents cleanup (pre ++ a :: post)
      = (pre.map (fun b => { b with is_active := false })
           ++ { a with is_active := false } :: post,
         (pre ++ [a]).map (fun b => b.name), some e) := by
  induction pre with
  | nil => simp [stopShutdownAgents, BaseAgent.shutdown, Except.map, hfail]
  | cons b rest ih =>
      have hb : cleanup b.name = .ok () := hpre b (List.mem_cons_self b rest)
      have hrest : ∀ c ∈ rest, cleanup c.name = .ok () :=
        fun c hc => hpre c (List.mem_cons_of_mem b hc)
      simp [stopShutdownAgents, BaseAgent.shutdown, Except.map, hb, ih hrest]

/-! ## Claims -/

/-- C1 (amended): in every iteration of `_run_agent`, when
`execute_cycle` returns a result the orchestrator writes the
`{last_update, data}` envelope under the agent's name exactly when the
result is *truthy* — an explicit error payload `{error: msg}` is a
non-empty dict, hence truthy, hence written like any other result — and
the loop then proceeds to its normal sleep of one cycle interval. -/
theorem C1_cycle_write_truthy (agent : AgentState) (now : String)
    (result : Value) :
    (runAgentIteration agent now (.ret result)).write
        = (if result.truthy then some (agent.name, mkEnvelope now result)
           else Option.none)
      ∧ (runAgentIteration agent now (.ret result)).sleep
          = agent.cycle_interval
      ∧ ∀ msg : String,
          (runAgentIteration agent now
              (.ret (.dict [("error", .str msg)]))).write
            = some (agent.name, mkEnvelope now (.dict [("error", .str msg)])) :=
  ⟨rfl, rfl, fun _ => rfl⟩

/-- C1 counterexample: `execute_cycle` returning the explicit error
payload `{"error": "boom"}` does *not* leave shared memory untouched —
the envelope is written under the agent's name, because `if result:`
only tests truthiness and a non-empty dict is truthy. -/
theorem C1_counterexample :
    (runAgentIteration monitoringAgent0 "2026-01-01T00:00:00"
        (.ret (.dict [("error", .str "boom")]))).write
      = some ("EnvironmentalMonitoringAgent",
              mkEnvelope "2026-01-01T00:00:00"
                (.dict [("error", .str "boom")])) := rfl

/-- C5 (amended): `start` sets the running flag true as its *first* step
(line 25), before initializing any agent; consequently, whatever the
initialization outcome — in particular after a `start` aborted by a
failing `initialize` — the orchestrator is left in the running state and
`is_running()` returns true. -/
theorem C5_running_set_first (setup : String → Except String Unit)
    (o : Orchestrator) :
    (AgentOrchestrator.start setup o).orch.running = true
      ∧ AgentOrchestrator.isRunning (AgentOrchestrator.start setup o).orch
          = true := by
  unfold AgentOrchestrator.start AgentOrchestrator.isRunning
  cases h : (startInitAgents setup o.agents).2.2 <;> simp [h]

/-- C5 counterexample: with the first agent's `_setup` raising, `start`
aborts with the exception, yet `is_running()` afterwards reports true —
the flag was set before initialization, not as a final step. -/
theorem C5_counterexample :
    (AgentOrchestrator.start
        (failOn "EnvironmentalMonitoringAgent" "setup failed") orchTwo0).error
        = some "setup failed"
      ∧ AgentOrchestrator.isRunning
          (AgentOrchestrator.start
            (failOn "EnvironmentalMonitoringAgent" "setup failed")
            orchTwo0).orch = true := by
  constructor <;> rfl

/-- C2 (amended): `stop` invokes `shutdown` on the agents sequentially
in registration order, but without any exception handling: when every
shutdown succeeds all agents are shut down and `stop` returns normally,
while an exception raised by one agent's `shutdown` aborts the shutdown
of the remaining agents and propagates out of `stop`. -/
theorem C2_stop_shutdown_aborts (cleanup : String → Except String Unit)
    (o : Orchestrator) :
    ((∀ a ∈ o.agents, cleanup a.name = .ok ()) →
        (AgentOrchestrator.stop cleanup o).shutdownInvoked
            = o.agents.map (fun a => a.name)
          ∧ (AgentOrchestrator.stop cleanup o).error = Option.none)
      ∧ ∀ (pre : List AgentState) (a : AgentState) (post : List AgentState)
          (e : String),
          o.agents = pre ++ a :: post →
          (∀ b ∈ pre, cleanup b.name = .ok ()) →
          cleanup a.name = .error e →
          (AgentOrchestrator.stop cleanup o).shutdownInvoked
              = (pre ++ [a]).map (fun b => b.name)
            ∧ (AgentOrchestrator.stop cleanup o).error = some e := by
  constructor
  · intro h
    simp [AgentOrchestrator.stop, stopShutdownAgents_ok cleanup o.agents h]
  · intro pre a post e hsplit hpre hfail
    simp [AgentOrchestrator.stop, hsplit,
      stopShutdownAgents_fail cleanup pre a post e hpre hfail]

/-- C2 witness: the amended statement evaluated on a two-agent
orchestrator whose first agent's cleanup raises. -/
theorem C2_witness :
    (AgentOrchestrator.stop
        (failOn "EnvironmentalMonitoringAgent" "cleanup failed")
        orchTwo0).shutdownInvoked = ["EnvironmentalMonitoringAgent"]
      ∧ (AgentOrchestrator.stop
          (failOn "EnvironmentalMonitoringAgent" "cleanup failed")
          orchTwo0).error = some "cleanup failed" := by
  have h := (C2_stop_shutdown_aborts
      (failOn "EnvironmentalMonitoringAgent" "cleanup failed") orchTwo0).2
      [] monitoringAgent0 [predictiveAgent0] "cleanup failed"
      rfl (by intro b hb; simp at hb) rfl
  simpa using h

/-- C2 counterexample: in the same scenario, `shutdown` is *not* invoked
on every agent (the second agent is skipped) and the exception is *not*
contained — it escapes `stop`. -/
theorem C2_counterexample :
    (AgentOrchestrator.stop
        (failOn "EnvironmentalMonitoringAgent" "cleanup failed")
        orchTwo0).shutdownInvoked ≠ orchTwo0.agents.map (fun a => a.name)
      ∧ (AgentOrchestrator.stop
          (failOn "EnvironmentalMonitoringAgent" "cleanup failed")
          orchTwo0).error ≠ Option.none := by
  constructor <;> decide

/-- C4: on every registered agent set, `start` initializes the agents
sequentially in registration order; when every `initialize` succeeds it
happens exactly once per agent (in order) and only then is one cycle
task per agent plus the coordination task spawned, while the first
failing `initialize` makes the failure escape `start` with no cycle task
and no coordination task spawned. -/
theorem C4_start_init_order (setup : String → Except String Unit)
    (o : Orchestrator) :
    ((∀ a ∈ o.agents, setup a.name = .ok ()) →
        (AgentOrchestrator.start setup o).initInvoked
            = o.agents.map (fun a => a.name)
          ∧ (AgentOrchestrator.start setup o).cycleTasksSpawned
              = o.agents.map (fun a => a.name)
          ∧ (AgentOrchestrator.start setup o).coordinationTaskSpawned = true
          ∧ (AgentOrchestrator.start setup o).error = Option.none)
      ∧ ∀ (pre : List AgentState) (a : AgentState) (post : List AgentState)
          (e : String),
          o.agents = pre ++ a :: post →
          (∀ b ∈ pre, setup b.name = .ok ()) →
          setup a.name = .error e →
          (AgentOrchestrator.start setup o).error = some e
            ∧ (AgentOrchestrator.start setup o).initInvoked
                = (pre ++ [a]).map (fun b => b.name)
            ∧ (AgentOrchestrator.start setup o).cycleTasksSpawned = []
            ∧ (AgentOrchestrator.start setup o).coordinationTaskSpawned
                = false := by
  constructor
  · intro h
    simp [AgentOrchestrator.start, startInitAgents_ok setup o.agents h]
  · intro pre a post e hsplit hpre hfail
    simp [AgentOrchestrator.start, hsplit,
      startInitAgents_fail setup pre a post e hpre hfail]

/-- C4 witness: both branches evaluated on the two-agent orchestrator:
an all-succeeding setup initializes and spawns both agents in order, and
a first-agent failure spawns nothing. -/
theorem C4_witness :
    (AgentOrchestrator.start allOk orchTwo0).initInvoked
        = ["EnvironmentalMonitoringAgent", "PredictiveActionAgent"]
      ∧ (AgentOrchestrator.start allOk orchTwo0).cycleTasksSpawned
          = ["EnvironmentalMonitoringAgent", "PredictiveActionAgent"]
      ∧ (AgentOrchestrator.start
            (failOn "EnvironmentalMonitoringAgent" "setup failed")
            orchTwo0).cycleTasksSpawned = []
      ∧ (AgentOrchestrator.start
            (failOn "EnvironmentalMonitoringAgent" "setup failed")
            orchTwo0).coordinationTaskSpawned = false := by
  have h1 := (C4_start_init_order allOk orchTwo0).1 (by intro a ha; rfl)
  have h2 := (C4_start_init_order
      (failOn "EnvironmentalMonitoringAgent" "setup failed") orchTwo0).2
      [] monitoringAgent0 [predictiveAgent0] "setup failed"
      rfl (by intro b hb; simp at hb) rfl
  refine ⟨by simpa [orchTwo0, monitoringAgent0, predictiveAgent0] using h1.1,
    by simpa [orchTwo0, monitoringAgent0, predictiveAgent0] using h1.2.1,
    h2.2.2.1, h2.2.2.2⟩

theorem runAgentLoopFrom_length (agent : AgentState) (running : Nat → Bool)
    (hrun : ∀ i, running i = true) :
    ∀ (start : Nat) (tr : List (String × CycleOutcome)),
      (runAgentLoopFrom agent running start tr).length = tr.length := by
  intro start tr
  induction tr generalizing start with
  | nil => rfl
  | cons p rest ih =>
      obtain ⟨now, oc⟩ := p
      simp [runAgentLoopFrom, hrun start, ih (start + 1)]

theorem runAgentLoopFrom_getElem (agent : AgentState) (running : Nat → Bool)
    (hrun : ∀ i, running i = true) :
    ∀ (start : Nat) (tr : List (String × CycleOutcome)) (i : Nat)
      (now : String) (oc : CycleOutcome),
      tr[i]? = some (now, oc) →
      (runAgentLoopFrom agent running start tr)[i]?
        = some (runAgentIteration agent now oc) := by
  intro start tr
  induction tr generalizing start with
  | nil => intro i now oc h; simp at h
  | cons p rest ih =>
      obtain ⟨now0, oc0⟩ := p
      intro i now oc h
      match i with
      | 0 =>
          simp at h
          simp [runAgentLoopFrom, hrun start, h.1, h.2]
      | Nat.succ k =>
          simp at h
          simpa [runAgentLoopFrom, hrun start] using ih (start + 1) k now oc h

/-- C7: a single failing cycle never removes the agent from subsequent
scheduling: an iteration whose `execute_cycle` raises writes nothing to
shared memory, sleeps the fixed 5-unit backoff and continues; while the
running flag (cleared only by `stop`) reads true at every iteration the
loop attempts every cycle of the trace, and a run that stops short of
the trace can only mean the flag was observed false. -/
theorem C7_fault_backoff_retry (agent : AgentState) (running : Nat → Bool)
    (tr : List (String × CycleOutcome)) (start : Nat)
    (hrun : ∀ i, running i = true) :
    (runAgentLoopFrom agent running start tr).length = tr.length
      ∧ (∀ (i : Nat) (now e : String), tr[i]? = some (now, .raise e) →
          (runAgentLoopFrom agent running start tr)[i]?
            = some { write := Option.none, sleep := 5, continues := true })
      ∧ ∀ running' : Nat → Bool,
          (runAgentLoopFrom agent running' start tr).length
              ≠ tr.length →
          ∃ i, running' i = false := by
  refine ⟨runAgentLoopFrom_length agent running hrun start tr, ?_, ?_⟩
  · intro i now e h
    exact runAgentLoopFrom_getElem agent running hrun start tr i now
      (.raise e) h
  · intro running' hne
    by_cases hall : ∀ i, running' i = true
    · exact absurd (runAgentLoopFrom_length agent running' hall start tr) hne
    · push_neg at hall
      obtain ⟨i, hi⟩ := hall
      exact ⟨i, by simpa using hi⟩

/-- C7 witness: a two-iteration tr whose first cycle raises — both
iterations are attempted and the faulting one backs off 5 units with no
write. -/
theorem C7_witness :
    (runAgentLoopFrom monitoringAgent0 (fun _ => true) 0
        [("t0", .raise "boom"), ("t1", .ret alertData)]).length = 2
      ∧ (runAgentLoopFrom monitoringAgent0 (fun _ => true) 0
          [("t0", .raise "boom"), ("t1", .ret alertData)])[0]?
          = some { write := Option.none, sleep := 5, continues := true } := by
  have h := C7_fault_backoff_retry monitoringAgent0 (fun _ => true)
      [("t0", .raise "boom"), ("t1", .ret alertData)] 0 (fun _ => rfl)
  exact ⟨h.1, h.2.1 0 "t0" "boom" rfl⟩

/-- C9: `broadcast_message` returns one entry per registered agent (same
count, same names, same order); an agent whose handler raises gets the
`"Error: ..."` marker string in its slot, while every agent whose
handler returns normally gets its real response — one agent's failure
does not stop delivery to the remaining agents. -/
theorem C9_broadcast_isolated (handler : String → Except String Value)
    (agents : List AgentState) (j : Nat) (a : AgentState) (e : String)
    (ha : agents[j]? = some a) (hfail : handler a.name = .error e) :
    (broadcastMessage handler agents).length = agents.length
      ∧ (broadcastMessage handler agents).map Prod.fst
          = agents.map (fun b => b.name)
      ∧ (broadcastMessage handler agents)[j]?
          = some (a.name, .str ("Error: " ++ e))
      ∧ ∀ (i : Nat) (b : AgentState) (v : Value), agents[i]? = some b →
          handler b.name = .ok v →
          (broadcastMessage handler agents)[i]? = some (b.name, v) := by
  refine ⟨by simp [broadcastMessage],
    by simp [broadcastMessage, List.map_map, Function.comp], ?_, ?_⟩
  · rw [broadcastMessage, List.getElem?_map, ha]
    simp [hfail]
  · intro i b v hb hv
    rw [broadcastMessage, List.getElem?_map, hb]
    simp [hv]

/-- C9 witness: two agents, handler raising on the first — two entries,
the first an error marker, the second the real response. -/
theorem C9_witness :
    (broadcastMessage
        (fun n => if n == "EnvironmentalMonitoringAgent" then
                    .error "handler blew up"
                  else .ok (.str "pong"))
        [monitoringAgent0, predictiveAgent0]).length = 2
      ∧ (broadcastMessage
          (fun n => if n == "EnvironmentalMonitoringAgent" then
                      .error "handler blew up"
                    else .ok (.str "pong"))
          [monitoringAgent0, predictiveAgent0])[0]?
          = some ("EnvironmentalMonitoringAgent",
                  .str ("Error: " ++ "handler blew up"))
      ∧ (broadcastMessage
          (fun n => if n == "EnvironmentalMonitoringAgent" then
                      .error "handler blew up"
                    else .ok (.str "pong"))
          [monitoringAgent0, predictiveAgent0])[1]?
          = some ("PredictiveActionAgent", .str "pong") := by
  have h := C9_broadcast_isolated
      (fun n => if n == "EnvironmentalMonitoringAgent" then
                  .error "handler blew up"
                else .ok (.str "pong"))
      [monitoringAgent0, predictiveAgent0] 0 monitoringAgent0
      "handler blew up" rfl rfl
  exact ⟨h.1, h.2.2.1, h.2.2.2 1 predictiveAgent0 (.str "pong") rfl rfl⟩

/-- C10: `BaseAgent.initialise` sets the activity flag true *before*
running the agent-specific `_setup` hook, so when `_setup` raises the
fault propagates with the flag already true; consequently a `start`
aborted at some agent leaves that agent and every agent initialized
before it with `is_active = True`, and they are all counted by
`_update_global_state`'s `agents_running` aggregate
(`len([a for a in agents if a.is_active])`). -/
theorem C10_failed_init_leaves_active
    (setup : String → Except String Unit) (o : Orchestrator)
    (pre : List AgentState) (a : AgentState) (post : List AgentState)
    (e : String) (hsplit : o.agents = pre ++ a :: post)
    (hpre : ∀ b ∈ pre, setup b.name = .ok ())
    (hfail : setup a.name = .error e) :
    ((BaseAgent.initialise (fun m => (setup a.name).map fun _ => m) a).1.is_active
        = true
      ∧ (BaseAgent.initialise (fun m => (setup a.name).map fun _ => m) a).2
          = some e)
      ∧ (AgentOrchestrator.start setup o).error = some e
      ∧ (AgentOrchestrator.start setup o).orch.agents
          = pre.map (fun b => { b with is_active := true })
            ++ { a with is_active := true } :: post
      ∧ ((AgentOrchestrator.start setup o).orch.agents.filter
            (fun b => b.is_active)).length
          = pre.length + 1 + (post.filter (fun b => b.is_active)).length := by
  have hs := startInitAgents_fail setup pre a post e hpre hfail
  have hactive : ∀ l : List AgentState,
      (List.filter (fun b => b.is_active)
        (l.map (fun b => { b with is_active := true }))).length = l.length := by
    intro l
    induction l with
    | nil => rfl
    | cons b rest ih => simpa using ih
  have h3 : (AgentOrchestrator.start setup o).orch.agents
      = pre.map (fun b => { b with is_active := true })
        ++ { a with is_active := true } :: post := by
    simp [AgentOrchestrator.start, hsplit, hs]
  refine ⟨⟨by simp [BaseAgent.initialise, hfail, Except.map],
    by simp [BaseAgent.initialise, hfail, Except.map]⟩, ?_, h3, ?_⟩
  · simp [AgentOrchestrator.start, hsplit, hs]
  · rw [h3, List.filter_append]
    simp [hactive]
    omega

/-- C10 witness: the two-agent orchestrator with the first agent's setup
raising — `start` aborts, the failing agent is left active, and the
`agents_running` count is 1. -/
theorem C10_witness :
    (AgentOrchestrator.start
        (failOn "EnvironmentalMonitoringAgent" "setup failed")
        orchTwo0).error = some "setup failed"
      ∧ ((AgentOrchestrator.start
            (failOn "EnvironmentalMonitoringAgent" "setup failed")
            orchTwo0).orch.agents.filter (fun b => b.is_active)).length
          = 1 := by
  have h := C10_failed_init_leaves_active
      (failOn "EnvironmentalMonitoringAgent" "setup failed") orchTwo0
      [] monitoringAgent0 [predictiveAgent0] "setup failed"
      rfl (by intro b hb; simp at hb) rfl
  refine ⟨h.2.1, ?_⟩
  rw [h.2.2.2]
  rfl

/-- C3: single-writer discipline over all orchestrator operations: any
shared-memory write under a non-`"system"` key comes from that very
agent's own cycle iteration and carries the envelope of a truthy result
the agent itself returned from a completed `execute_cycle`; the
`"system"` key is written only by a coordination tick, with the
`_update_global_state` aggregate. -/
theorem C3_single_writer (step : OrchStep) (k : String) (v : Value)
    (hwf : step.wf) (hin : (k, v) ∈ stepWrites step) :
    (k ≠ "system" →
        ∃ agent now result,
          step = .agentCycle agent now (.ret result)
            ∧ agent.name = k ∧ result.truthy = true
            ∧ v = mkEnvelope now result)
      ∧ (k = "system" →
        ∃ agents now sm, step = .coordinationTick agents now sm
          ∧ v = systemStateValue agents now) := by
  cases step with
  | agentCycle agent now outcome =>
      cases outcome with
      | ret result =>
          by_cases ht : result.truthy
          · have hkv : k = agent.name ∧ v = mkEnvelope now result := by
              have := hin
              simp [stepWrites, runAgentIteration, ht] at this
              exact this
            refine ⟨fun _ => ⟨agent, now, result, rfl, hkv.1.symm, ht, hkv.2⟩,
              fun hsys => absurd (hkv.1.symm.trans hsys) hwf⟩
          · simp [stepWrites, runAgentIteration, ht] at hin
      | raise e => simp [stepWrites, runAgentIteration] at hin
  | coordinationTick agents now sm =>
      cases hc : checkCrossAgentActions (agents.map fun a => a.name) sm with
      | ok l =>
          have hkv : k = "system" ∧ v = systemStateValue agents now := by
            have := hin
            simp [stepWrites, hc] at this
            exact this
          exact ⟨fun hk => absurd hkv.1 hk,
            fun _ => ⟨agents, now, sm, rfl, hkv.2⟩⟩
      | error e => simp [stepWrites, hc] at hin
  | startOp => simp [stepWrites] at hin
  | stopOp => simp [stepWrites] at hin
  | statusQuery => simp [stepWrites] at hin
  | messageDispatch => simp [stepWrites] at hin

/-- C3 witness: a concrete monitoring-agent cycle step writing a truthy
alert payload satisfies the theorem's hypotheses, and the theorem's
conclusion pins the write to that agent's own truthy result. -/
theorem C3_witness :
    Value.truthy alertData = true
      ∧ monitoringAgent0.name = "EnvironmentalMonitoringAgent" := by
  have h := C3_single_writer
      (.agentCycle monitoringAgent0 "t0" (.ret alertData))
      "EnvironmentalMonitoringAgent" (mkEnvelope "t0" alertData)
      (by simp [OrchStep.wf, monitoringAgent0])
      (by simp [stepWrites, runAgentIteration, alertData, monitoringAgent0,
        Value.truthy, mkEnvelope])
  obtain ⟨agent, now, result, hstep, hname, htruthy, henv⟩ := h.1 (by simp)
  injection hstep with ha hb hc
  injection hc with hres
  subst ha; subst hres
  exact ⟨htruthy, hname⟩

/-- C8: on a coordination tick, exactly when the monitoring agent's last
published data carries a truthy `pollution_alert` flag, the orchestrator
directly invokes `handle_pollution_alert` on the predictive agent and
`coordinate_pollution_response` on the community agent — each exactly
once per tick and only for those of the two that are registered; with
the flag absent or falsy no direct invocation happens. -/
theorem C8_pollution_rule (registered : List String)
    (sm : List (String × Value)) (alert : Bool)
    (invs : List (String × String))
    (hflag : pollutionAlertFlag sm = .ok alert)
    (hrun : checkCrossAgentActions registered sm = .ok invs) :
    invs.count ("PredictiveActionAgent", "handle_pollution_alert")
        = (if alert = true ∧ "PredictiveActionAgent" ∈ registered
           then 1 else 0)
      ∧ invs.count
          ("CommunityCoordinationAgent", "coordinate_pollution_response")
        = (if alert = true ∧ "CommunityCoordinationAgent" ∈ registered
           then 1 else 0)
      ∧ ∀ p ∈ invs,
          p = ("PredictiveActionAgent", "handle_pollution_alert")
            ∨ p = ("CommunityCoordinationAgent",
                   "coordinate_pollution_response") := by
  unfold checkCrossAgentActions at hrun
  rw [hflag] at hrun
  simp only [bind, Except.bind] at hrun
  cases alert with
  | false =>
      simp at hrun
      subst hrun
      simp
  | true =>
      simp at hrun
      by_cases h1 : "PredictiveActionAgent" ∈ registered <;>
        by_cases h2 : "CommunityCoordinationAgent" ∈ registered <;>
          simp [h1, h2] at hrun <;> subst hrun <;>
            simp [h1, h2, List.count_cons, List.count_nil]

/-- C8 witness: shared memory holding a monitoring envelope with a truthy
alert flag and all four agents registered — both extensions invoked
exactly once. -/
theorem C8_witness :
    ((checkCrossAgentActions
        ["EnvironmentalMonitoringAgent", "PredictiveActionAgent",
         "CommunityCoordinationAgent", "PersonalSustainabilityCoach"]
        [("EnvironmentalMonitoringAgent", mkEnvelope "t0" alertData)])
      = .ok [("PredictiveActionAgent", "handle_pollution_alert"),
             ("CommunityCoordinationAgent", "coordinate_pollution_response")])
      ∧ ([("PredictiveActionAgent", "handle_pollution_alert"),
          ("CommunityCoordinationAgent",
           "coordinate_pollution_response")].count
            ("PredictiveActionAgent", "handle_pollution_alert") = 1) := by
  have h := C8_pollution_rule
      ["EnvironmentalMonitoringAgent", "PredictiveActionAgent",
       "CommunityCoordinationAgent", "PersonalSustainabilityCoach"]
      [("EnvironmentalMonitoringAgent", mkEnvelope "t0" alertData)]
      true
      [("PredictiveActionAgent", "handle_pollution_alert"),
       ("CommunityCoordinationAgent", "coordinate_pollution_response")]
      rfl rfl
  refine ⟨rfl, h.1.trans ?_⟩
  decide

/-- C6 (amended): a message whose `type` matches none of the recognized
kinds gets the well-defined `{"status": "unknown_message_type"}`
response from both the monitoring and the predictive handler, with no
exception and no state change; but a malformed payload of a *known*
type can raise an unhandled fault: the predictive `update_threshold`
message without a numeric `threshold` raises `TypeError` from the
chained comparison `0 <= None <= 1`, and such a fault reaches callers of
`send_message_to_agent` (only `broadcast_message` converts it to an
error string). -/
theorem C6_unknown_type_handled (oAQ oPE : Value → Except String Value)
    (mem : List (String × Value)) (threshold : Value)
    (locations : List Value) (es : List (String × Value)) (t : Value)
    (hty : ((es.find? (fun p => p.1 == "type")).map Prod.snd).getD .none = t)
    (h1 : t.eqStr "get_current_data" = false)
    (h2 : t.eqStr "get_location_data" = false)
    (h3 : t.eqStr "set_monitoring_location" = false)
    (h4 : t.eqStr "get_predictions" = false)
    (h5 : t.eqStr "request_prediction" = false)
    (h6 : t.eqStr "update_threshold" = false) :
    monitoringProcessMessage mem locations (.dict es)
        = .ok (unknownTypeResponse, locations)
      ∧ predictiveProcessMessage oAQ oPE mem threshold (.dict es)
          = .ok (unknownTypeResponse, threshold)
      ∧ predictiveProcessMessage oAQ oPE mem threshold
          (.dict [("type", .str "update_threshold")])
          = .error "TypeError: unsupported comparison" := by
  refine ⟨?_, ?_, rfl⟩
  · simp [monitoringProcessMessage, Value.dictGet, bind, Except.bind, hty, h1, h2, h3]
  · simp [predictiveProcessMessage, Value.dictGet, bind, Except.bind, hty, h4, h5, h6]

/-- C6 witness: a message of the unrecognized type `"frobnicate"` gets
the unknown-type response from both handlers, leaving their state
unchanged. -/
theorem C6_witness :
    monitoringProcessMessage [] [] (.dict [("type", .str "frobnicate")])
        = .ok (unknownTypeResponse, [])
      ∧ predictiveProcessMessage (fun _ => .ok .none) (fun _ => .ok .none)
          [] (.int 0) (.dict [("type", .str "frobnicate")])
          = .ok (unknownTypeResponse, .int 0) := by
  have h := C6_unknown_type_handled (fun _ => .ok .none) (fun _ => .ok .none)
      [] (.int 0) [] [("type", .str "frobnicate")] (.str "frobnicate")
      rfl rfl rfl rfl rfl rfl rfl
  exact ⟨h.1, h.2.1⟩

/-- C6 counterexample: the predictive handler raises an unhandled
`TypeError` on the known-type message `{"type": "update_threshold"}`
with no `threshold` field — not every malformed message yields the
well-defined unknown-type response. -/
theorem C6_counterexample :
    predictiveProcessMessage (fun _ => .ok .none) (fun _ => .ok .none)
        [] (.int 0) (.dict [("type", .str "update_threshold")])
      = .error "TypeError: unsupported comparison" := rfl

end EcoMind
